import Mathlib

/-!
Shallow embedding of the Discord task-allocation bot (`BOT.py`) and proofs
about its task-allocation cycle.

Modelling conventions:
* machine state (`TaskBot` attributes read and written by the cycle) is the
  structure `BotState`;
* one firing of `task_allocation_loop_impl` is the function `tick`, driven by
  a `TickEnv` that records every answer the external world (Discord gateway,
  Google Sheets) gives during that firing;
* Python dicts keyed by ints are association lists (`List (Nat × _)`);
* `datetime` values are `Nat`; the sort key `reaction_timestamps.get(...).get(r.id,
  datetime.max)` is `WithTop Nat`, with `datetime.max` as `⊤`;
* a Python function that may raise is embedded with `Except` (or an explicit
  `raised` flag when the caller catches the exception).
-/

abbrev UserId := Nat
abbrev RoleId := Nat
abbrev MsgId := Nat
abbrev Timestamp := Nat

/-- A guild role (`discord.Role`): identity plus name. -/
structure Role where
  id : RoleId
  name : String
deriving DecidableEq, Inhabited

/-- A guild member (`discord.Member`): identity plus their current role ids.
Discord compares members by id; distinct `Member` values with equal `id` do
not coexist inside one modelled guild. -/
structure Member where
  id : UserId
  roles : List RoleId
deriving DecidableEq, Inhabited

/-- A user attached to a reaction (`user` in `reaction.users()`). -/
structure ReactionUser where
  id : UserId
  isBot : Bool
deriving DecidableEq, Inhabited

/-- One reaction group on a fetched message (`message.reactions` entry):
the emoji and the users the platform reports for it. -/
structure Reaction where
  emoji : String
  users : List ReactionUser
deriving DecidableEq, Inhabited

/-- The guild visible from the announcement message: its roles and the members
that `guild.get_member` / `guild.fetch_member` can resolve (a member a fetch
fails for is simply absent from `members`). -/
structure Guild where
  roles : List Role
  members : List Member
deriving DecidableEq, Inhabited

def TASK_ROLE_NAME : String := "TaskHolder"

def DEFAULT_WINNERS_PER_TASK : Int := 1

/-- Association-list update: replace the value at the first occurrence of the
key, or append the binding (Python `d[k] = v`). -/
def setKey {β : Type} (l : List (Nat × β)) (k : Nat) (v : β) : List (Nat × β) :=
  match l with
  | [] => [(k, v)]
  | (k1, v1) :: rest => if k1 = k then (k, v) :: rest else (k1, v1) :: setKey rest k v

/-- Association-list deletion of every binding of the key (Python `del d[k]`;
keys are unique in the modelled dicts, so deleting all bindings matches). -/
def eraseKey {β : Type} (l : List (Nat × β)) (k : Nat) : List (Nat × β) :=
  l.filter fun p => p.1 != k

/-- The bot attributes the allocation cycle reads and writes
(`TaskBot.__init__` and `create_task`). -/
structure BotState where
  total_tasks : Int
  current_task : Int
  winners_per_task : Int
  is_paused : Bool
  stop_requested : Bool
  configured : Bool
  hasAnnounceChannel : Bool
  loopRunning : Bool
  reaction_timestamps : List (MsgId × List (UserId × Timestamp))
deriving DecidableEq, Inhabited

/-- The `on_reaction_add` event handler (BOT.py lines 388-397): ignore bots,
ignore messages without a tracked reaction map, and record the timestamp only
if this user has none recorded yet for that message. The emoji is not
inspected. -/
def on_reaction_add (s : BotState) (msgId : MsgId) (userId : UserId)
    (isBot : Bool) (now : Timestamp) : BotState :=
  if isBot then s
  else
    match s.reaction_timestamps.lookup msgId with
    | none => s
    | some inner =>
      match inner.lookup userId with
      | some _ => s
      | none =>
        { s with reaction_timestamps :=
            setKey s.reaction_timestamps msgId (inner ++ [(userId, now)]) }

/-- External outcomes of one `dm_winner` call: whether the private send
succeeds and, if the public fallback send is attempted, whether it succeeds. -/
structure DmEnv where
  dmOk : Bool
  fallbackOk : Bool
deriving DecidableEq, Inhabited

/-- The `dm_winner` method (BOT.py lines 317-351). The private send either
succeeds (`ok true`) or raises `Forbidden`/`HTTPException`; the except block
then performs the public fallback send when an announce channel is set, and
that send is NOT wrapped in its own try, so its failure raises out of
`dm_winner` (`error ()`). `send_log` swallows its own exceptions and cannot
raise. -/
def dm_winner (hasAnnounce : Bool) (env : DmEnv) : Except Unit Bool :=
  if env.dmOk then .ok true
  else if hasAnnounce then
    if env.fallbackOk then .ok false else .error ()
  else .ok false

/-- External outcomes of one `write_to_sheet` call: configuration flags, the
url parse result, the worksheet row count, and per-attempt success of the
`open_by_key`/`get_worksheet` and `update_cell` calls. -/
structure SheetEnv where
  gcReady : Bool
  hasUrl : Bool
  sheetIdValid : Bool
  openOk : Nat → Bool
  rowCount : Nat
  updateOk : Nat → Bool

/-- How one `write_to_sheet` call ended. -/
inductive WriteOutcome where
  | notConfigured
  | invalidUrl
  | outOfBounds
  | success
  | exhausted
deriving DecidableEq, Inhabited

/-- Observable behaviour of one `write_to_sheet` call: the final outcome, how
many loop iterations ran a cell-update attempt, and the backoff sleeps (in
seconds) taken between attempts. -/
structure SheetResult where
  outcome : WriteOutcome
  attemptsMade : Nat
  delays : List Nat
deriving DecidableEq, Inhabited

/-- The body of one iteration of the retry loop in `write_to_sheet` (BOT.py
lines 293-309): `ok o` means the iteration returned with outcome `o`, `error ()`
means an exception was caught by the iteration's except clause. -/
def sheetAttempt (tn : Int) (env : SheetEnv) (k : Nat) : Except Unit WriteOutcome :=
  if ¬env.sheetIdValid then .ok .invalidUrl
  else if ¬env.openOk k then .error ()
  else if tn + 1 > (env.rowCount : Int) then .ok .outOfBounds
  else if env.updateOk k then .ok .success
  else .error ()

/-- The `write_to_sheet` method (BOT.py lines 286-315): skip if Sheets is not
configured, otherwise `for attempt in range(3)`; an exception on attempt 0 or 1
sleeps `2 ** attempt` seconds and retries, an exception on attempt 2 logs a
critical failure. The method itself never raises and touches no bot state. -/
def write_to_sheet (tn : Int) (env : SheetEnv) : SheetResult :=
  if ¬env.gcReady ∨ ¬env.hasUrl then ⟨.notConfigured, 0, []⟩
  else
    match sheetAttempt tn env 0 with
    | .ok o => ⟨o, 1, []⟩
    | .error _ =>
      match sheetAttempt tn env 1 with
      | .ok o => ⟨o, 2, [1]⟩
      | .error _ =>
        match sheetAttempt tn env 2 with
        | .ok o => ⟨o, 3, [1, 2]⟩
        | .error _ => ⟨.exhausted, 3, [1, 2]⟩

/-- The `get_member_safely` method (BOT.py lines 141-159): cache lookup with an
API-fetch fallback; a member neither cached nor fetchable resolves to `none`.
Both paths are collapsed into membership in `g.members`. -/
def get_member_safely (g : Guild) (uid : UserId) : Option Member :=
  g.members.find? fun m => m.id == uid

/-- The reactor-collection loop (BOT.py lines 486-494): iterate over every
reaction group of the fetched message — the emoji is never inspected — and
over every user of each group; skip bots, resolve the member (skipping
unresolvable users), and append it if not already collected. -/
def collectReactors (guild : Option Guild) (reactions : List Reaction) : List Member :=
  reactions.foldl
    (fun acc reaction =>
      reaction.users.foldl
        (fun acc2 u =>
          if u.isBot then acc2
          else
            match guild with
            | none => acc2
            | some g =>
              match get_member_safely g u.id with
              | some m => if m ∈ acc2 then acc2 else acc2 ++ [m]
              | none => acc2)
        acc)
    []

/-- The cooldown-role lookup (BOT.py lines 496-498): `discord.utils.get` by
name over the guild roles, `None` when the message has no guild. -/
def task_holder_role (guild : Option Guild) : Option Role :=
  match guild with
  | none => none
  | some g => g.roles.find? fun r => r.name == TASK_ROLE_NAME

/-- The eligibility filter (BOT.py line 499): keep a reactor unless the
task-holder role exists and is among the reactor's roles. -/
def eligible_reactors (thr : Option Role) (reactors : List Member) : List Member :=
  reactors.filter fun m =>
    match thr with
    | none => true
    | some r => decide (r.id ∉ m.roles)

/-- The sort key of BOT.py line 503:
`self.reaction_timestamps.get(message.id, {}).get(r.id, datetime.max)`,
with `datetime.max` embedded as `⊤`. -/
def tsKey (inner : List (UserId × Timestamp)) (uid : UserId) : WithTop Nat :=
  (inner.lookup uid).elim ⊤ (fun t => (t : WithTop Nat))

/-- The comparison Python's stable `sorted(..., key=...)` orders by. -/
def tsLE (inner : List (UserId × Timestamp)) (a b : Member) : Prop :=
  tsKey inner a.id ≤ tsKey inner b.id

instance (inner : List (UserId × Timestamp)) : DecidableRel (tsLE inner) :=
  fun a b => inferInstanceAs (Decidable (tsKey inner a.id ≤ tsKey inner b.id))

instance (inner : List (UserId × Timestamp)) : IsTotal Member (tsLE inner) :=
  ⟨fun a b => le_total (tsKey inner a.id) (tsKey inner b.id)⟩

instance (inner : List (UserId × Timestamp)) : IsTrans Member (tsLE inner) :=
  ⟨fun _ _ _ hab hbc => le_trans hab hbc⟩

/-- Winner selection (BOT.py lines 503-504): stable sort of the eligible
reactors by first-seen timestamp, then take the first `tasks_this_round`.
Python's `sorted` is a stable sort by the key; `insertionSort` with the
key-order `tsLE` is stable as well, so both produce the same list. -/
def select_winners (inner : List (UserId × Timestamp)) (eligible : List Member)
    (ttr : Nat) : List Member :=
  (eligible.insertionSort (tsLE inner)).take ttr

/-- External outcomes of one winner's settlement pipeline (BOT.py lines
510-523): whether `get_or_create_role` returned a role, whether `add_roles`
succeeded, the DM outcomes, and the sheet outcomes. -/
structure WinnerEnv where
  roleOk : Bool
  addRolesOk : Bool
  dm : DmEnv
  sheet : SheetEnv

/-- What one winner's settlement did, as observed by the cycle. -/
structure SettleOutcome where
  granted : Bool
  revocationScheduled : Bool
  dmDelivered : Option Bool
  sheet : Option SheetResult
  raised : Bool
  assigned : Bool
deriving DecidableEq, Inhabited

/-- One winner's settlement pipeline, i.e. the body of the per-winner `try`
block (BOT.py lines 510-527): if the guild is present, get-or-create the role
(may raise), grant it (may raise), schedule the deferred removal task (cannot
raise), DM the winner (may raise through its fallback), write the sheet
(cannot raise), and only then count the winner as assigned. A raise at any
step is caught by the per-winner except clause; nothing performed before the
raise — in particular the role grant and its scheduled removal — is undone. -/
def settleWinner (guild : Option Guild) (hasAnnounce : Bool) (tn : Int)
    (env : WinnerEnv) : SettleOutcome :=
  match guild with
  | none => ⟨false, false, none, none, false, false⟩
  | some _ =>
    if ¬env.roleOk then ⟨false, false, none, none, true, false⟩
    else if ¬env.addRolesOk then ⟨false, false, none, none, true, false⟩
    else
      match dm_winner hasAnnounce env.dm with
      | .error _ => ⟨true, true, none, none, true, false⟩
      | .ok delivered =>
        ⟨true, true, some delivered, some (write_to_sheet tn env.sheet), false, true⟩

/-- The per-winner settlement loop (BOT.py lines 507-527): winners are settled
in selection order, winner `i` targeting task `starting + i`. -/
def settleAll (guild : Option Guild) (hasAnnounce : Bool) (starting : Int)
    (winnerEnvs : Nat → WinnerEnv) (winners : List Member) :
    List (Member × Int × SettleOutcome) :=
  winners.enum.map fun p =>
    (p.2, starting + (p.1 : Int), settleWinner guild hasAnnounce (starting + (p.1 : Int)) (winnerEnvs p.1))

/-- Count of winners appended to `winners_assigned` (BOT.py line 523). -/
def assignedCountOf (outcomes : List (Member × Int × SettleOutcome)) : Nat :=
  (outcomes.filter fun t => t.2.2.assigned).length

/-- One reaction event delivered to `on_reaction_add` while the window is
open. -/
structure ReactionEvent where
  msgId : MsgId
  userId : UserId
  isBot : Bool
  time : Timestamp
deriving DecidableEq, Inhabited

/-- Everything the external world decides during one firing of
`task_allocation_loop_impl`. -/
structure TickEnv where
  announceOk : Bool
  messageId : MsgId
  addReactionOk : Bool
  windowEvents : List ReactionEvent
  stopAfterWindow : Bool
  fetchOk : Bool
  reactions : List Reaction
  guild : Option Guild
  winnerEnvs : Nat → WinnerEnv
  finalSendOk : Bool

/-- What one firing of the cycle reported (all fields default to the values of
a tick that opened no round). -/
structure RoundSummary where
  startingTask : Int := 0
  tasksThisRound : Int := 0
  opened : Option MsgId := none
  resolved : Bool := false
  unclaimed : Bool := false
  abandoned : Bool := false
  framingError : Bool := false
  eligible : List Member := []
  winners : List Member := []
  outcomes : List (Member × Int × SettleOutcome) := []
deriving Inhabited

/-- Delivery of the reaction events that arrive while the window is open, in
arrival order, each handled by `on_reaction_add`. -/
def applyEvents (evs : List ReactionEvent) (s : BotState) : BotState :=
  evs.foldl (fun st ev => on_reaction_add st ev.msgId ev.userId ev.isBot ev.time) s

/-- One firing of `task_allocation_loop_impl` (BOT.py lines 399-561).
Control flow, in source order: stop flag, pause flag, configuration guard,
batch-complete guard, `tasks_this_round` guard, announcement send (a raise
reaches the outer except with no state changed), creation of the reaction-map
entry, seeding `add_reaction` (a raise leaves the entry behind), the reaction
window (events handled by `on_reaction_add`), the post-window stop re-check
(returns without deleting the entry), the fetch (a raise leaves the entry
behind), reactor collection, cooldown filtering, and either the unclaimed
notice or winner selection and per-winner settlement followed by the counter
advance and the congratulations send; the `del` of the reaction-map entry runs
only if no exception escaped first. -/
def tick (e : TickEnv) (s : BotState) : BotState × RoundSummary :=
  if s.stop_requested then (s, {})
  else if s.is_paused then (s, {})
  else if ¬s.configured ∨ ¬s.hasAnnounceChannel then (s, {})
  else if s.current_task > s.total_tasks then ({ s with loopRunning := false }, {})
  else
    let starting := s.current_task
    let remaining := s.total_tasks - starting + 1
    let ttr := min s.winners_per_task remaining
    if ttr ≤ 0 then ({ s with loopRunning := false }, {})
    else if ¬e.announceOk then (s, { framingError := true })
    else
      let s1 := { s with reaction_timestamps := setKey s.reaction_timestamps e.messageId [] }
      let su0 : RoundSummary :=
        { startingTask := starting, tasksThisRound := ttr, opened := some e.messageId }
      if ¬e.addReactionOk then (s1, { su0 with framingError := true })
      else
        let s2 := applyEvents e.windowEvents s1
        if e.stopAfterWindow then ({ s2 with stop_requested := true }, { su0 with abandoned := true })
        else if ¬e.fetchOk then (s2, { su0 with framingError := true })
        else
          let reactors := collectReactors e.guild e.reactions
          let elig := eligible_reactors (task_holder_role e.guild) reactors
          if elig.isEmpty then
            if ¬e.finalSendOk then (s2, { su0 with resolved := true, unclaimed := true, framingError := true })
            else
              ({ s2 with reaction_timestamps := eraseKey s2.reaction_timestamps e.messageId },
               { su0 with resolved := true, unclaimed := true })
          else
            let inner := (s2.reaction_timestamps.lookup e.messageId).getD []
            let winners := select_winners inner elig ttr.toNat
            let outcomes := settleAll e.guild s.hasAnnounceChannel starting e.winnerEnvs winners
            let k := assignedCountOf outcomes
            let s3 := if k ≠ 0 then { s2 with current_task := s2.current_task + (k : Int) } else s2
            let su := { su0 with resolved := true, eligible := elig, winners := winners, outcomes := outcomes }
            if k ≠ 0 ∧ ¬e.finalSendOk then (s3, { su with framingError := true })
            else
              ({ s3 with reaction_timestamps := eraseKey s3.reaction_timestamps e.messageId }, su)

/-- A sequence of cycle firings, returning the final state and the summaries
in order. -/
def runTicks (envs : List TickEnv) (s : BotState) : BotState × List RoundSummary :=
  match envs with
  | [] => (s, [])
  | e :: rest =>
    let p := tick e s
    let q := runTicks rest p.1
    (q.1, p.2 :: q.2)

/-- The `/create_task` command body (BOT.py lines 699-714): refused when the
bot is unconfigured; otherwise installs the new batch, resetting
`current_task` to 1 and clearing the pause/stop flags. -/
def create_task (s : BotState) (tasks : Int) (winners : Option Int) : BotState :=
  if ¬s.configured then s
  else
    { s with
      total_tasks := tasks
      current_task := 1
      winners_per_task := winners.getD DEFAULT_WINNERS_PER_TASK
      is_paused := false
      stop_requested := false }

/-- The eligible-candidate list a tick resolves, as a function of the tick
environment (BOT.py lines 486-499 composed). -/
def roundElig (e : TickEnv) : List Member :=
  eligible_reactors (task_holder_role e.guild) (collectReactors e.guild e.reactions)

/-- The `tasks_this_round` computation (BOT.py lines 423-424):
`min(self.winners_per_task, self.total_tasks - starting_task_num + 1)`. -/
def roundTTR (s : BotState) : Int :=
  min s.winners_per_task (s.total_tasks - s.current_task + 1)

/-- The per-round reaction map consulted by the sort key at resolution time:
the entry created at announcement, populated by the window's events. -/
def roundInner (e : TickEnv) (s : BotState) : List (UserId × Timestamp) :=
  ((applyEvents e.windowEvents
      { s with reaction_timestamps := setKey s.reaction_timestamps e.messageId [] }
    ).reaction_timestamps.lookup e.messageId).getD []

/-! Concrete fixtures used by witnesses and counterexamples. -/

/-- A sheet environment in which every attempt succeeds. -/
def sheetOkEnv : SheetEnv := ⟨true, true, true, fun _ => true, 1000, fun _ => true⟩

/-- A winner environment whose whole settlement pipeline succeeds. -/
def winAllOk : WinnerEnv := ⟨true, true, ⟨true, true⟩, sheetOkEnv⟩

/-- A winner environment in which the role grant succeeds but the DM and its
public fallback both fail, so the pipeline raises after the grant. -/
def winDmFail : WinnerEnv := ⟨true, true, ⟨false, false⟩, sheetOkEnv⟩

/-- Three ordinary members with no roles. -/
def memA : Member := ⟨1, []⟩

def memB : Member := ⟨2, []⟩

def memC : Member := ⟨3, []⟩

/-- A guild with no roles and three resolvable members. -/
def guildABC : Guild := ⟨[], [memA, memB, memC]⟩

/-- A guild owning a TaskHolder role held by member 4 but not member 5. -/
def guildCooldown : Guild := ⟨[⟨9, "TaskHolder"⟩], [⟨4, [9]⟩, ⟨5, []⟩]⟩

/-- A configured idle state with no batch running. -/
def stateIdle : BotState := ⟨0, 1, 1, false, false, true, true, false, []⟩

/-- A configured state mid-batch: 2 tasks, at task 1, two winners per round. -/
def stateRun : BotState := ⟨2, 1, 2, false, false, true, true, true, []⟩

/-- A configured state holding a recorded reaction: message 5 already has a
timestamp for user 7. -/
def stateTs : BotState := ⟨0, 1, 1, false, false, true, true, false, [(5, [(7, 3)])]⟩

/-- Round 1 environment: members 1 and 2 react (1 first); member 1's
settlement raises after the role grant, member 2's succeeds. -/
def envRound1 : TickEnv :=
  ⟨true, 100, true, [⟨100, 1, false, 5⟩, ⟨100, 2, false, 6⟩], false, true,
   [⟨"✅", [⟨1, false⟩, ⟨2, false⟩]⟩], some guildABC,
   fun i => if i = 0 then winDmFail else winAllOk, true⟩

/-- Round 2 environment: member 3 reacts and settles successfully. -/
def envRound2 : TickEnv :=
  ⟨true, 101, true, [⟨101, 3, false, 7⟩], false, true,
   [⟨"✅", [⟨3, false⟩]⟩], some guildABC, fun _ => winAllOk, true⟩

/-- Round 3 environment: identical shape, fresh message id. -/
def envRound3 : TickEnv :=
  ⟨true, 102, true, [⟨102, 3, false, 9⟩], false, true,
   [⟨"✅", [⟨3, false⟩]⟩], some guildABC, fun _ => winAllOk, true⟩

/-- An environment whose round is opened and then abandoned by a stop request
observed right after the reaction window. -/
def envStopMidRound : TickEnv :=
  ⟨true, 100, true, [⟨100, 1, false, 5⟩], true, true,
   [⟨"✅", [⟨1, false⟩]⟩], some guildABC, fun _ => winAllOk, true⟩

/-- An environment whose round is opened (entry created, user 1's reaction
recorded) but whose post-window reaction fetch raises, so the round body is
escaped by a framing exception. -/
def envFetchFail : TickEnv :=
  ⟨true, 100, true, [⟨100, 1, false, 5⟩], false, false,
   [⟨"✅", [⟨1, false⟩]⟩], some guildABC, fun _ => winAllOk, true⟩

/-- An environment in which the cooldown-role holder 4 reacts first and the
role-free member 5 reacts second. -/
def envCooldown : TickEnv :=
  ⟨true, 100, true, [⟨100, 4, false, 5⟩, ⟨100, 5, false, 6⟩], false, true,
   [⟨"✅", [⟨4, false⟩, ⟨5, false⟩]⟩], some guildCooldown, fun _ => winAllOk, true⟩

/-! ### Association-list lemmas -/

theorem lookup_setKey_self {β : Type} (l : List (Nat × β)) (k : Nat) (v : β) :
    (setKey l k v).lookup k = some v := by
  induction l with
  | nil => simp [setKey, List.lookup]
  | cons p rest ih =>
    obtain ⟨k1, v1⟩ := p
    by_cases h : k1 = k
    · simp [setKey, h, List.lookup]
    · have hb : (k == k1) = false := by simpa using Ne.symm h
      simp only [setKey, if_neg h, List.lookup, hb]
      exact ih

theorem lookup_setKey_ne {β : Type} (l : List (Nat × β)) (k k1 : Nat) (v : β)
    (h : k1 ≠ k) : (setKey l k v).lookup k1 = l.lookup k1 := by
  have hb : (k1 == k) = false := by simpa using h
  induction l with
  | nil => simp [setKey, List.lookup, hb]
  | cons p rest ih =>
    obtain ⟨k2, v2⟩ := p
    by_cases h2 : k2 = k
    · subst h2
      simp [setKey, List.lookup, hb]
    · simp only [setKey, if_neg h2, List.lookup]
      cases hc : k1 == k2 <;> simp [hc, ih]

theorem lookup_eraseKey_self {β : Type} (l : List (Nat × β)) (k : Nat) :
    (eraseKey l k).lookup k = none := by
  induction l with
  | nil => rfl
  | cons p rest ih =>
    obtain ⟨k1, v1⟩ := p
    by_cases h : k1 = k
    · simpa [eraseKey, List.filter_cons, h] using ih
    · have hb2 : (k == k1) = false := by simpa using Ne.symm h
      simp only [eraseKey, List.filter_cons] at ih ⊢
      rw [if_pos (by simpa using h)]
      simpa [List.lookup, hb2] using ih

/-! ### Event-handler lemmas -/

@[simp] theorem on_reaction_add_current_task (s : BotState) (m : MsgId) (u : UserId)
    (b : Bool) (t : Timestamp) : (on_reaction_add s m u b t).current_task = s.current_task := by
  unfold on_reaction_add
  repeat' split
  all_goals rfl

@[simp] theorem applyEvents_current_task (evs : List ReactionEvent) (s : BotState) :
    (applyEvents evs s).current_task = s.current_task := by
  induction evs generalizing s with
  | nil => rfl
  | cons ev rest ih =>
    show (applyEvents rest (on_reaction_add s ev.msgId ev.userId ev.isBot ev.time)).current_task
      = s.current_task
    rw [ih, on_reaction_add_current_task]

theorem on_reaction_add_lookup_isSome (s : BotState) (m : MsgId) (u : UserId)
    (b : Bool) (t : Timestamp) (k : MsgId)
    (h : (s.reaction_timestamps.lookup k).isSome = true) :
    (((on_reaction_add s m u b t).reaction_timestamps.lookup k).isSome) = true := by
  unfold on_reaction_add
  repeat' split
  any_goals exact h
  by_cases hk : k = m
  · subst hk
    simp [lookup_setKey_self]
  · simpa [lookup_setKey_ne _ _ _ _ hk] using h

theorem applyEvents_lookup_isSome (evs : List ReactionEvent) (s : BotState) (k : MsgId)
    (h : (s.reaction_timestamps.lookup k).isSome = true) :
    (((applyEvents evs s).reaction_timestamps.lookup k).isSome) = true := by
  induction evs generalizing s with
  | nil => exact h
  | cons ev rest ih =>
    exact ih _ (on_reaction_add_lookup_isSome _ _ _ _ _ _ h)

/-! ### Resolution-pipeline lemmas -/

theorem foldl_const {α β : Type} (l : List β) (a : α) (f : α → β → α)
    (h : ∀ x y, f x y = x) : l.foldl f a = a := by
  induction l generalizing a with
  | nil => rfl
  | cons x xs ih => simp [h, ih]

theorem collectReactors_none (rs : List Reaction) : collectReactors none rs = [] := by
  unfold collectReactors
  exact foldl_const _ _ _ fun acc r =>
    foldl_const _ _ _ fun acc2 u => by cases u.isBot <;> simp

theorem settleWinner_some_assigned (g : Guild) (ha : Bool) (tn : Int) (w : WinnerEnv) :
    (settleWinner (some g) ha tn w).assigned = !(settleWinner (some g) ha tn w).raised := by
  simp only [settleWinner]
  repeat' split
  all_goals simp_all

/-! ### Per-tick accounting -/

theorem tick_current_task (e : TickEnv) (s : BotState) :
    (tick e s).1.current_task
      = s.current_task + (assignedCountOf (tick e s).2.outcomes : Int) := by
  simp only [tick]
  by_cases h1 : s.stop_requested = true
  · rw [if_pos h1]; simp [assignedCountOf]
  rw [if_neg h1]
  by_cases h2 : s.is_paused = true
  · rw [if_pos h2]; simp [assignedCountOf]
  rw [if_neg h2]
  by_cases h3 : ¬s.configured = true ∨ ¬s.hasAnnounceChannel = true
  · rw [if_pos h3]; simp [assignedCountOf]
  rw [if_neg h3]
  by_cases h4 : s.current_task > s.total_tasks
  · rw [if_pos h4]; simp [assignedCountOf]
  rw [if_neg h4]
  by_cases h5 : min s.winners_per_task (s.total_tasks - s.current_task + 1) ≤ 0
  · rw [if_pos h5]; simp [assignedCountOf]
  rw [if_neg h5]
  by_cases h6 : ¬e.announceOk = true
  · rw [if_pos h6]; simp [assignedCountOf]
  rw [if_neg h6]
  by_cases h7 : ¬e.addReactionOk = true
  · rw [if_pos h7]; simp [assignedCountOf]
  rw [if_neg h7]
  by_cases h8 : e.stopAfterWindow = true
  · rw [if_pos h8]; simp [assignedCountOf]
  rw [if_neg h8]
  by_cases h9 : ¬e.fetchOk = true
  · rw [if_pos h9]; simp [assignedCountOf]
  rw [if_neg h9]
  by_cases h10 : (eligible_reactors (task_holder_role e.guild)
      (collectReactors e.guild e.reactions)).isEmpty = true
  · rw [if_pos h10]
    by_cases h11 : ¬e.finalSendOk = true
    · rw [if_pos h11]; simp [assignedCountOf]
    · rw [if_neg h11]; simp [assignedCountOf]
  rw [if_neg h10]
  split_ifs with hA hB hB
  · simp
  · exact absurd hA.1 hB
  · simp
  · push_neg at hB
    simp [hB]

theorem tick_monotone (e : TickEnv) (s : BotState) :
    s.current_task ≤ (tick e s).1.current_task := by
  rw [tick_current_task]
  exact le_add_of_nonneg_right (Int.natCast_nonneg _)

theorem runTicks_current_task (envs : List TickEnv) (s : BotState) :
    (runTicks envs s).1.current_task
      = s.current_task
        + (((runTicks envs s).2.map fun su => assignedCountOf su.outcomes).sum : Int) := by
  induction envs generalizing s with
  | nil => simp [runTicks]
  | cons e rest ih =>
    simp only [runTicks, List.map_cons, List.sum_cons]
    rw [ih, tick_current_task]
    push_cast
    ring

theorem runTicks_monotone (envs : List TickEnv) (s : BotState) :
    s.current_task ≤ (runTicks envs s).1.current_task := by
  rw [runTicks_current_task]
  exact le_add_of_nonneg_right (Int.natCast_nonneg _)

theorem tick_round_cases (e : TickEnv) (s : BotState) :
    ((tick e s).2.resolved = false ∧ (tick e s).2.winners = []
      ∧ (tick e s).2.outcomes = [])
    ∨ ((tick e s).2.resolved = true ∧ (roundElig e).isEmpty = true
      ∧ (tick e s).2.winners = [] ∧ (tick e s).2.outcomes = []
      ∧ (tick e s).2.eligible = [])
    ∨ ((tick e s).2.resolved = true ∧ (roundElig e).isEmpty = false
      ∧ (∃ g, e.guild = some g)
      ∧ (tick e s).2.eligible = roundElig e
      ∧ (tick e s).2.winners
          = select_winners (roundInner e s) (roundElig e) (roundTTR s).toNat
      ∧ (tick e s).2.outcomes
          = settleAll e.guild s.hasAnnounceChannel s.current_task e.winnerEnvs
              ((tick e s).2.winners)
      ∧ (tick e s).2.startingTask = s.current_task
      ∧ ¬roundTTR s ≤ 0) := by
  simp only [tick]
  by_cases h1 : s.stop_requested = true
  · rw [if_pos h1]; exact Or.inl ⟨rfl, rfl, rfl⟩
  rw [if_neg h1]
  by_cases h2 : s.is_paused = true
  · rw [if_pos h2]; exact Or.inl ⟨rfl, rfl, rfl⟩
  rw [if_neg h2]
  by_cases h3 : ¬s.configured = true ∨ ¬s.hasAnnounceChannel = true
  · rw [if_pos h3]; exact Or.inl ⟨rfl, rfl, rfl⟩
  rw [if_neg h3]
  by_cases h4 : s.current_task > s.total_tasks
  · rw [if_pos h4]; exact Or.inl ⟨rfl, rfl, rfl⟩
  rw [if_neg h4]
  by_cases h5 : min s.winners_per_task (s.total_tasks - s.current_task + 1) ≤ 0
  · rw [if_pos h5]; exact Or.inl ⟨rfl, rfl, rfl⟩
  rw [if_neg h5]
  by_cases h6 : ¬e.announceOk = true
  · rw [if_pos h6]; exact Or.inl ⟨rfl, rfl, rfl⟩
  rw [if_neg h6]
  by_cases h7 : ¬e.addReactionOk = true
  · rw [if_pos h7]; exact Or.inl ⟨rfl, rfl, rfl⟩
  rw [if_neg h7]
  by_cases h8 : e.stopAfterWindow = true
  · rw [if_pos h8]; exact Or.inl ⟨rfl, rfl, rfl⟩
  rw [if_neg h8]
  by_cases h9 : ¬e.fetchOk = true
  · rw [if_pos h9]; exact Or.inl ⟨rfl, rfl, rfl⟩
  rw [if_neg h9]
  by_cases h10 : (eligible_reactors (task_holder_role e.guild)
      (collectReactors e.guild e.reactions)).isEmpty = true
  · rw [if_pos h10]
    by_cases h11 : ¬e.finalSendOk = true
    · rw [if_pos h11]; exact Or.inr (Or.inl ⟨rfl, h10, rfl, rfl, rfl⟩)
    · rw [if_neg h11]; exact Or.inr (Or.inl ⟨rfl, h10, rfl, rfl, rfl⟩)
  rw [if_neg h10]
  have hg : ∃ g, e.guild = some g := by
    cases hge : e.guild with
    | none =>
      exfalso
      rw [hge, collectReactors_none] at h10
      simp [eligible_reactors] at h10
    | some g => exact ⟨g, rfl⟩
  split_ifs with hA hB hB
  all_goals
    exact Or.inr (Or.inr ⟨rfl, by simpa using h10, hg, rfl, rfl, rfl, rfl, h5⟩)

theorem tick_purges_on_complete (e : TickEnv) (s : BotState)
    (hopen : (tick e s).2.opened.isSome = true)
    (hab : (tick e s).2.abandoned = false)
    (hfr : (tick e s).2.framingError = false) :
    (tick e s).1.reaction_timestamps.lookup e.messageId = none := by
  simp only [tick] at hopen hab hfr ⊢
  by_cases h1 : s.stop_requested = true
  · rw [if_pos h1] at hopen; simp at hopen
  rw [if_neg h1] at hopen hab hfr ⊢
  by_cases h2 : s.is_paused = true
  · rw [if_pos h2] at hopen; simp at hopen
  rw [if_neg h2] at hopen hab hfr ⊢
  by_cases h3 : ¬s.configured = true ∨ ¬s.hasAnnounceChannel = true
  · rw [if_pos h3] at hopen; simp at hopen
  rw [if_neg h3] at hopen hab hfr ⊢
  by_cases h4 : s.current_task > s.total_tasks
  · rw [if_pos h4] at hopen; simp at hopen
  rw [if_neg h4] at hopen hab hfr ⊢
  by_cases h5 : min s.winners_per_task (s.total_tasks - s.current_task + 1) ≤ 0
  · rw [if_pos h5] at hopen; simp at hopen
  rw [if_neg h5] at hopen hab hfr ⊢
  by_cases h6 : ¬e.announceOk = true
  · rw [if_pos h6] at hopen; simp at hopen
  rw [if_neg h6] at hopen hab hfr ⊢
  by_cases h7 : ¬e.addReactionOk = true
  · rw [if_pos h7] at hfr; simp at hfr
  rw [if_neg h7] at hopen hab hfr ⊢
  by_cases h8 : e.stopAfterWindow = true
  · rw [if_pos h8] at hab; simp at hab
  rw [if_neg h8] at hopen hab hfr ⊢
  by_cases h9 : ¬e.fetchOk = true
  · rw [if_pos h9] at hfr; simp at hfr
  rw [if_neg h9] at hopen hab hfr ⊢
  by_cases h10 : (eligible_reactors (task_holder_role e.guild)
      (collectReactors e.guild e.reactions)).isEmpty = true
  · rw [if_pos h10] at hfr ⊢
    by_cases h11 : ¬e.finalSendOk = true
    · rw [if_pos h11] at hfr; simp at hfr
    · rw [if_neg h11]
      exact lookup_eraseKey_self _ _
  rw [if_neg h10] at hfr ⊢
  split_ifs at hfr ⊢ with hA hB hB
  all_goals first
  | exact lookup_eraseKey_self _ _
  | simp at hfr

theorem tick_retains_on_abandon (e : TickEnv) (s : BotState)
    (hab : (tick e s).2.abandoned = true) :
    ((tick e s).1.reaction_timestamps.lookup e.messageId).isSome = true := by
  simp only [tick] at hab ⊢
  by_cases h1 : s.stop_requested = true
  · rw [if_pos h1] at hab; simp at hab
  rw [if_neg h1] at hab ⊢
  by_cases h2 : s.is_paused = true
  · rw [if_pos h2] at hab; simp at hab
  rw [if_neg h2] at hab ⊢
  by_cases h3 : ¬s.configured = true ∨ ¬s.hasAnnounceChannel = true
  · rw [if_pos h3] at hab; simp at hab
  rw [if_neg h3] at hab ⊢
  by_cases h4 : s.current_task > s.total_tasks
  · rw [if_pos h4] at hab; simp at hab
  rw [if_neg h4] at hab ⊢
  by_cases h5 : min s.winners_per_task (s.total_tasks - s.current_task + 1) ≤ 0
  · rw [if_pos h5] at hab; simp at hab
  rw [if_neg h5] at hab ⊢
  by_cases h6 : ¬e.announceOk = true
  · rw [if_pos h6] at hab; simp at hab
  rw [if_neg h6] at hab ⊢
  by_cases h7 : ¬e.addReactionOk = true
  · rw [if_pos h7] at hab; simp at hab
  rw [if_neg h7] at hab ⊢
  by_cases h8 : e.stopAfterWindow = true
  · rw [if_pos h8]
    exact applyEvents_lookup_isSome _ _ _ (by simp [lookup_setKey_self])
  rw [if_neg h8] at hab ⊢
  by_cases h9 : ¬e.fetchOk = true
  · rw [if_pos h9] at hab; simp at hab
  rw [if_neg h9] at hab ⊢
  by_cases h10 : (eligible_reactors (task_holder_role e.guild)
      (collectReactors e.guild e.reactions)).isEmpty = true
  · rw [if_pos h10] at hab
    by_cases h11 : ¬e.finalSendOk = true
    · rw [if_pos h11] at hab; simp at hab
    · rw [if_neg h11] at hab; simp at hab
  rw [if_neg h10] at hab
  split_ifs at hab with hA hB hB
  all_goals simp at hab

theorem tick_retains_on_framing_error (e : TickEnv) (s : BotState)
    (hopen : (tick e s).2.opened.isSome = true)
    (hfr : (tick e s).2.framingError = true) :
    ((tick e s).1.reaction_timestamps.lookup e.messageId).isSome = true := by
  simp only [tick] at hopen hfr ⊢
  by_cases h1 : s.stop_requested = true
  · rw [if_pos h1] at hopen; simp at hopen
  rw [if_neg h1] at hopen hfr ⊢
  by_cases h2 : s.is_paused = true
  · rw [if_pos h2] at hopen; simp at hopen
  rw [if_neg h2] at hopen hfr ⊢
  by_cases h3 : ¬s.configured = true ∨ ¬s.hasAnnounceChannel = true
  · rw [if_pos h3] at hopen; simp at hopen
  rw [if_neg h3] at hopen hfr ⊢
  by_cases h4 : s.current_task > s.total_tasks
  · rw [if_pos h4] at hopen; simp at hopen
  rw [if_neg h4] at hopen hfr ⊢
  by_cases h5 : min s.winners_per_task (s.total_tasks - s.current_task + 1) ≤ 0
  · rw [if_pos h5] at hopen; simp at hopen
  rw [if_neg h5] at hopen hfr ⊢
  by_cases h6 : ¬e.announceOk = true
  · rw [if_pos h6] at hopen; simp at hopen
  rw [if_neg h6] at hopen hfr ⊢
  by_cases h7 : ¬e.addReactionOk = true
  · rw [if_pos h7]
    simp [lookup_setKey_self]
  rw [if_neg h7] at hopen hfr ⊢
  by_cases h8 : e.stopAfterWindow = true
  · rw [if_pos h8] at hfr; simp at hfr
  rw [if_neg h8] at hopen hfr ⊢
  by_cases h9 : ¬e.fetchOk = true
  · rw [if_pos h9]
    exact applyEvents_lookup_isSome _ _ _ (by simp [lookup_setKey_self])
  rw [if_neg h9] at hopen hfr ⊢
  by_cases h10 : (eligible_reactors (task_holder_role e.guild)
      (collectReactors e.guild e.reactions)).isEmpty = true
  · rw [if_pos h10] at hfr ⊢
    by_cases h11 : ¬e.finalSendOk = true
    · rw [if_pos h11]
      exact applyEvents_lookup_isSome _ _ _ (by simp [lookup_setKey_self])
    · rw [if_neg h11] at hfr; simp at hfr
  rw [if_neg h10] at hfr ⊢
  split_ifs at hfr ⊢ with hA hB hB
  all_goals first
  | exact applyEvents_lookup_isSome _ _ _ (by simp [lookup_setKey_self])
  | simp at hfr

theorem tick_opened_startingTask (e : TickEnv) (s : BotState)
    (hopen : (tick e s).2.opened.isSome = true) :
    (tick e s).2.startingTask = s.current_task := by
  simp only [tick] at hopen ⊢
  by_cases h1 : s.stop_requested = true
  · rw [if_pos h1] at hopen; simp at hopen
  rw [if_neg h1] at hopen ⊢
  by_cases h2 : s.is_paused = true
  · rw [if_pos h2] at hopen; simp at hopen
  rw [if_neg h2] at hopen ⊢
  by_cases h3 : ¬s.configured = true ∨ ¬s.hasAnnounceChannel = true
  · rw [if_pos h3] at hopen; simp at hopen
  rw [if_neg h3] at hopen ⊢
  by_cases h4 : s.current_task > s.total_tasks
  · rw [if_pos h4] at hopen; simp at hopen
  rw [if_neg h4] at hopen ⊢
  by_cases h5 : min s.winners_per_task (s.total_tasks - s.current_task + 1) ≤ 0
  · rw [if_pos h5] at hopen; simp at hopen
  rw [if_neg h5] at hopen ⊢
  by_cases h6 : ¬e.announceOk = true
  · rw [if_pos h6] at hopen; simp at hopen
  rw [if_neg h6] at hopen ⊢
  by_cases h7 : ¬e.addReactionOk = true
  · rw [if_pos h7]
  rw [if_neg h7] at hopen ⊢
  by_cases h8 : e.stopAfterWindow = true
  · rw [if_pos h8]
  rw [if_neg h8] at hopen ⊢
  by_cases h9 : ¬e.fetchOk = true
  · rw [if_pos h9]
  rw [if_neg h9] at hopen ⊢
  by_cases h10 : (eligible_reactors (task_holder_role e.guild)
      (collectReactors e.guild e.reactions)).isEmpty = true
  · rw [if_pos h10]
    by_cases h11 : ¬e.finalSendOk = true
    · rw [if_pos h11]
    · rw [if_neg h11]
  rw [if_neg h10]
  split_ifs with hA hB hB
  all_goals rfl

theorem settleWinner_granted_not_assigned (g : Option Guild) (ha : Bool) (tn : Int)
    (w : WinnerEnv) (hg : (settleWinner g ha tn w).granted = true)
    (hn : (settleWinner g ha tn w).assigned = false) :
    (settleWinner g ha tn w).raised = true
      ∧ (settleWinner g ha tn w).revocationScheduled = true := by
  cases g with
  | none => simp [settleWinner] at hg
  | some g0 =>
    simp only [settleWinner] at hg hn ⊢
    repeat' split at hg
    all_goals simp_all [settleWinner]

theorem settleWinner_sheet_fields (g : Option Guild) (ha : Bool) (tn : Int)
    (w : WinnerEnv) (sh : SheetEnv) :
    ((settleWinner g ha tn { w with sheet := sh }).granted
        = (settleWinner g ha tn w).granted)
    ∧ ((settleWinner g ha tn { w with sheet := sh }).revocationScheduled
        = (settleWinner g ha tn w).revocationScheduled)
    ∧ ((settleWinner g ha tn { w with sheet := sh }).raised
        = (settleWinner g ha tn w).raised)
    ∧ ((settleWinner g ha tn { w with sheet := sh }).assigned
        = (settleWinner g ha tn w).assigned)
    ∧ ((settleWinner g ha tn { w with sheet := sh }).dmDelivered
        = (settleWinner g ha tn w).dmDelivered) := by
  obtain ⟨ro, ao, dmv, shw⟩ := w
  cases g with
  | none => exact ⟨rfl, rfl, rfl, rfl, rfl⟩
  | some g0 =>
    cases ro <;> cases ao <;> cases hE : dm_winner ha dmv <;>
      simp [settleWinner, hE]

theorem length_filter_map_eq {α β : Type} (l : List α) (f g : α → β) (p : β → Bool)
    (h : ∀ x ∈ l, p (f x) = p (g x)) :
    ((l.map f).filter p).length = ((l.map g).filter p).length := by
  induction l with
  | nil => rfl
  | cons x xs ih =>
    simp only [List.map_cons, List.filter_cons]
    rw [h x (by simp)]
    cases hp : p (g x) <;>
      simp [hp, ih fun y hy => h y (by simp [hy])]

theorem assignedCountOf_settleAll_sheet (g : Option Guild) (ha : Bool) (st : Int)
    (we : Nat → WinnerEnv) (f : Nat → SheetEnv) (winners : List Member) :
    assignedCountOf (settleAll g ha st (fun i => { we i with sheet := f i }) winners)
      = assignedCountOf (settleAll g ha st we winners) := by
  unfold assignedCountOf settleAll
  apply length_filter_map_eq
  intro p hp
  exact (settleWinner_sheet_fields g ha (st + (p.1 : Int)) (we p.1) (f p.1)).2.2.2.1

theorem settleAll_sheet_outcomes (g : Option Guild) (ha : Bool) (st : Int)
    (we : Nat → WinnerEnv) (f : Nat → SheetEnv) (winners : List Member) :
    (settleAll g ha st (fun i => { we i with sheet := f i }) winners).map
        (fun t => (t.1, t.2.1, t.2.2.granted, t.2.2.revocationScheduled,
                   t.2.2.raised, t.2.2.assigned))
      = (settleAll g ha st we winners).map
        (fun t => (t.1, t.2.1, t.2.2.granted, t.2.2.revocationScheduled,
                   t.2.2.raised, t.2.2.assigned)) := by
  unfold settleAll
  simp only [List.map_map]
  apply List.map_congr_left
  intro p hp
  obtain ⟨h1, h2, h3, h4, _⟩ :=
    settleWinner_sheet_fields g ha (st + (p.1 : Int)) (we p.1) (f p.1)
  simp [Function.comp, h1, h2, h3, h4]

theorem tick_winnerEnvs_congr (e : TickEnv) (s : BotState) (we : Nat → WinnerEnv)
    (h : ∀ winners : List Member,
        assignedCountOf (settleAll e.guild s.hasAnnounceChannel s.current_task we winners)
          = assignedCountOf
              (settleAll e.guild s.hasAnnounceChannel s.current_task e.winnerEnvs winners)) :
    (tick { e with winnerEnvs := we } s).1 = (tick e s).1 := by
  simp only [tick]
  by_cases h1 : s.stop_requested = true
  · rw [if_pos h1, if_pos h1]
  rw [if_neg h1, if_neg h1]
  by_cases h2 : s.is_paused = true
  · rw [if_pos h2, if_pos h2]
  rw [if_neg h2, if_neg h2]
  by_cases h3 : ¬s.configured = true ∨ ¬s.hasAnnounceChannel = true
  · rw [if_pos h3, if_pos h3]
  rw [if_neg h3, if_neg h3]
  by_cases h4 : s.current_task > s.total_tasks
  · rw [if_pos h4, if_pos h4]
  rw [if_neg h4, if_neg h4]
  by_cases h5 : min s.winners_per_task (s.total_tasks - s.current_task + 1) ≤ 0
  · rw [if_pos h5, if_pos h5]
  rw [if_neg h5, if_neg h5]
  by_cases h6 : ¬e.announceOk = true
  · rw [if_pos h6, if_pos h6]
  rw [if_neg h6, if_neg h6]
  by_cases h7 : ¬e.addReactionOk = true
  · rw [if_pos h7, if_pos h7]
  rw [if_neg h7, if_neg h7]
  by_cases h8 : e.stopAfterWindow = true
  · rw [if_pos h8, if_pos h8]
  rw [if_neg h8, if_neg h8]
  by_cases h9 : ¬e.fetchOk = true
  · rw [if_pos h9, if_pos h9]
  rw [if_neg h9, if_neg h9]
  by_cases h10 : (eligible_reactors (task_holder_role e.guild)
      (collectReactors e.guild e.reactions)).isEmpty = true
  · rw [if_pos h10, if_pos h10]
  rw [if_neg h10, if_neg h10]
  rw [h]
  split_ifs
  all_goals rfl

theorem runTicks_summary_start (envs : List TickEnv) (st : BotState) :
    ∀ su ∈ (runTicks envs st).2, su.opened = none ∨ st.current_task ≤ su.startingTask := by
  induction envs generalizing st with
  | nil => simp [runTicks]
  | cons e rest ih =>
    intro su hsu
    simp only [runTicks] at hsu
    rcases List.mem_cons.mp hsu with rfl | hmem
    · cases hop : (tick e st).2.opened with
      | none => exact Or.inl rfl
      | some m =>
        exact Or.inr (le_of_eq (tick_opened_startingTask e st (by simp [hop])).symm)
    · rcases ih (tick e st).1 su hmem with h | h
      · exact Or.inl h
      · exact Or.inr (le_trans (tick_monotone e st) h)

/-! ### Claim theorems -/

/-- C1: after a batch is created (initialising `current_task` to 1), across any
sequence of cycle ticks `current_task` is monotonically non-decreasing, each
tick advances it by exactly the number of winners whose settlement pipeline
completed without raising, and it always equals 1 plus the total count of
successfully settled winners across all ticks. -/
theorem current_task_ledger (s0 : BotState) (tasks : Int) (w : Option Int)
    (envs : List TickEnv) (hconf : s0.configured = true) :
    ((runTicks envs (create_task s0 tasks w)).1.current_task
        = 1 + (((runTicks envs (create_task s0 tasks w)).2.map
            fun su => assignedCountOf su.outcomes).sum : Int))
    ∧ (∀ (e : TickEnv) (st : BotState),
        st.current_task ≤ (tick e st).1.current_task
        ∧ (tick e st).1.current_task
            = st.current_task + (assignedCountOf (tick e st).2.outcomes : Int))
    ∧ (∀ (envs2 : List TickEnv) (st : BotState),
        st.current_task ≤ (runTicks envs2 st).1.current_task)
    ∧ (∀ (e : TickEnv) (st : BotState), ∀ t ∈ (tick e st).2.outcomes,
        t.2.2.assigned = !t.2.2.raised) := by
  refine ⟨?_, fun e st => ⟨tick_monotone e st, tick_current_task e st⟩,
    fun envs2 st => runTicks_monotone envs2 st, ?_⟩
  · rw [runTicks_current_task]
    simp [create_task, hconf]
  · intro e st t ht
    rcases tick_round_cases e st with ⟨_, _, ho⟩ | ⟨_, _, _, ho, _⟩ |
      ⟨_, _, ⟨g, hg⟩, _, _, ho, _, _⟩
    · rw [ho] at ht; simp at ht
    · rw [ho] at ht; simp at ht
    · rw [ho] at ht
      unfold settleAll at ht
      rw [hg] at ht
      simp only [List.mem_map] at ht
      obtain ⟨p, _, rfl⟩ := ht
      exact settleWinner_some_assigned g st.hasAnnounceChannel _ _

/-- Witness for C1: a fresh batch of 2 tasks with 2 winners per round, run for
one tick in which the first winner's settlement raises and the second's
succeeds. -/
theorem current_task_ledger_witness :
    (runTicks [envRound1] (create_task stateIdle 2 (some 2))).1.current_task
      = 1 + (((runTicks [envRound1] (create_task stateIdle 2 (some 2))).2.map
          fun su => assignedCountOf su.outcomes).sum : Int) :=
  (current_task_ledger stateIdle 2 (some 2) [envRound1] rfl).1

/-- C2: for every round that resolves, the number of selected winners equals
`min(min(winners_per_task, total_tasks - current_task + 1), #eligible)` —
`tasks_this_round` capped by the eligible-candidate count. -/
theorem winners_length_min (e : TickEnv) (s : BotState)
    (h : (tick e s).2.resolved = true) :
    (tick e s).2.winners.length
      = min (roundTTR s).toNat (tick e s).2.eligible.length := by
  rcases tick_round_cases e s with ⟨hr, _, _⟩ | ⟨_, _, hw, _, he⟩ |
    ⟨_, _, _, he, hw, _, _, _⟩
  · rw [hr] at h; simp at h
  · rw [hw, he]; simp
  · rw [hw, he]
    unfold select_winners
    rw [List.length_take]
    congr 1
    exact (List.perm_insertionSort _ _).length_eq

/-- Witness for C2: the resolved first round of the concrete run selects
exactly `min(min(2, 2), 2) = 2` winners. -/
theorem winners_length_min_witness :
    (tick envRound1 stateRun).2.winners.length
      = min (roundTTR stateRun).toNat (tick envRound1 stateRun).2.eligible.length :=
  winners_length_min envRound1 stateRun (by decide)

/-- C3: winner selection orders the eligible candidates by first-seen
timestamp: the selected list is non-decreasing in the sort key, its head has
the earliest key among all eligible candidates, and a candidate with no
recorded timestamp (key `⊤`, the `datetime.max` default) never precedes one
with a recorded timestamp. -/
theorem select_winners_sorted (inner : List (UserId × Timestamp))
    (elig : List Member) (ttr : Nat) :
    (select_winners inner elig ttr).Pairwise
        (fun a b => tsKey inner a.id ≤ tsKey inner b.id)
    ∧ (select_winners inner elig ttr ≠ [] →
        ∀ m ∈ elig,
          tsKey inner (select_winners inner elig ttr).headI.id ≤ tsKey inner m.id)
    ∧ (select_winners inner elig ttr).Pairwise
        (fun a b => tsKey inner a.id = ⊤ → tsKey inner b.id = ⊤) := by
  have hsorted : List.Sorted (tsLE inner) (elig.insertionSort (tsLE inner)) :=
    List.sorted_insertionSort (tsLE inner) elig
  have hpw : (select_winners inner elig ttr).Pairwise (tsLE inner) :=
    hsorted.sublist (List.take_sublist _ _)
  refine ⟨hpw, ?_, hpw.imp ?_⟩
  · intro hne m hm
    have hmem : m ∈ elig.insertionSort (tsLE inner) := by
      simp [List.mem_insertionSort, hm]
    cases ttr with
    | zero => exact absurd rfl hne
    | succ n =>
      cases hs : elig.insertionSort (tsLE inner) with
      | nil =>
        unfold select_winners at hne
        rw [hs] at hne
        exact absurd rfl hne
      | cons a t =>
        have hhead : (select_winners inner elig (n + 1)).headI = a := by
          unfold select_winners
          rw [hs]
          rfl
        rw [hhead]
        rw [hs] at hmem
        rcases List.mem_cons.mp hmem with rfl | hmt
        · exact le_refl _
        · exact List.rel_of_sorted_cons (hs ▸ hsorted) m hmt
  · intro a b hle htop
    have hle2 : tsKey inner a.id ≤ tsKey inner b.id := hle
    rw [htop] at hle2
    exact top_le_iff.mp hle2

/-- Witness for C3: two timestamped reactors and one with no recorded
timestamp; the head of the selection has the minimal key. -/
theorem select_winners_sorted_witness :
    tsKey [(1, 5), (2, 6)]
        (select_winners [(1, 5), (2, 6)]
          [⟨2, []⟩, ⟨1, []⟩, ⟨3, []⟩] 3).headI.id
      ≤ tsKey [(1, 5), (2, 6)] (⟨2, []⟩ : Member).id :=
  (select_winners_sorted [(1, 5), (2, 6)] [⟨2, []⟩, ⟨1, []⟩, ⟨3, []⟩] 3).2.1
    (by decide) ⟨2, []⟩ (by decide)

/-- C4: a candidate who holds the cooldown (TaskHolder) role at resolution
time is never among the selected winners of any tick, regardless of their
reaction timestamp. -/
theorem cooldown_holder_never_selected (e : TickEnv) (s : BotState)
    (r : Role) (m : Member)
    (hr : task_holder_role e.guild = some r) (hm : r.id ∈ m.roles) :
    m ∉ (tick e s).2.winners := by
  rcases tick_round_cases e s with ⟨_, hw, _⟩ | ⟨_, _, hw, _, _⟩ |
    ⟨_, _, _, _, hw, _, _, _⟩
  · rw [hw]; exact List.not_mem_nil m
  · rw [hw]; exact List.not_mem_nil m
  · rw [hw]
    intro hmem
    have h1 : m ∈ roundElig e := by
      unfold select_winners at hmem
      have h2 := List.mem_of_mem_take hmem
      exact (List.mem_insertionSort _).mp h2
    unfold roundElig eligible_reactors at h1
    rw [List.mem_filter, hr] at h1
    have h3 := h1.2
    simp at h3
    exact h3 hm

/-- Witness for C4: in the cooldown guild, member 4 holds role 9 (named
TaskHolder) and reacted first, yet is not selected. -/
theorem cooldown_holder_never_selected_witness :
    (⟨4, [9]⟩ : Member) ∉ (tick envCooldown stateRun).2.winners :=
  cooldown_holder_never_selected envCooldown stateRun ⟨9, "TaskHolder"⟩ ⟨4, [9]⟩
    (by decide) (by decide)

/-- Counterexample to C5: member 1 reacted to the announcement only with a
non-canonical emoji, yet appears in the eligible candidate list — the reaction
processing loop never inspects the emoji. -/
theorem non_canonical_emoji_reactor_eligible :
    (⟨1, []⟩ : Member) ∈ eligible_reactors
        (task_holder_role (some guildABC))
        (collectReactors (some guildABC) [⟨"👍", [⟨1, false⟩]⟩]) := by
  decide

/-- C5 as amended: eligibility resolution is completely independent of the
emoji attached to each reaction group — renaming every emoji arbitrarily
leaves the collected reactor list (and hence the eligible list) unchanged. -/
theorem collectReactors_ignores_emoji (guild : Option Guild)
    (reactions : List Reaction) (f : String → String) :
    collectReactors guild (reactions.map fun r => { r with emoji := f r.emoji })
      = collectReactors guild reactions := by
  unfold collectReactors
  rw [List.foldl_map]

/-- C6: recording reactions is idempotent per (message, candidate): delivering
a reaction event for a candidate whose timestamp is already recorded for that
message leaves the whole bot state — in particular the reaction map —
unchanged. -/
theorem on_reaction_add_idempotent (s : BotState) (m : MsgId) (u : UserId)
    (b : Bool) (t : Timestamp) (inner : List (UserId × Timestamp)) (t0 : Timestamp)
    (hmsg : s.reaction_timestamps.lookup m = some inner)
    (hrec : inner.lookup u = some t0) :
    on_reaction_add s m u b t = s := by
  unfold on_reaction_add
  cases b <;> simp [hmsg, hrec]

/-- Witness for C6: user 7 already has timestamp 3 recorded on message 5;
re-delivering their reaction at time 99 changes nothing. -/
theorem on_reaction_add_idempotent_witness :
    on_reaction_add stateTs 5 7 false 99 = stateTs :=
  on_reaction_add_idempotent stateTs 5 7 false 99 [(7, 3)] 3 (by decide) (by decide)

/-- Counterexample to C7: when the private send fails and the public fallback
send itself fails, `dm_winner` raises past its boundary instead of logging
only. -/
theorem dm_winner_fallback_failure_raises :
    dm_winner true ⟨false, false⟩ = .error () := rfl

/-- C7 as amended: `dm_winner` returns whether the private path delivered;
it raises exactly when the private send fails, an announce channel is set,
and the public fallback send also fails — that fallback failure propagates to
the caller (it is caught only by the per-winner handler). -/
theorem dm_winner_spec (ha : Bool) (env : DmEnv) :
    (dm_winner ha env = .error ()
        ↔ env.dmOk = false ∧ ha = true ∧ env.fallbackOk = false)
    ∧ (dm_winner ha env = .ok true ↔ env.dmOk = true)
    ∧ (dm_winner ha env = .ok false
        ↔ env.dmOk = false ∧ (ha = false ∨ env.fallbackOk = true)) := by
  obtain ⟨d, f⟩ := env
  cases d <;> cases f <;> cases ha <;> simp [dm_winner]

/-- C8: every ledger write runs at most 3 cell-update attempts; the backoff
delays double (2^0 then 2^1 seconds); an out-of-bounds row returns after one
attempt with no retry; and replacing every winner's sheet outcomes changes
neither the resulting bot state (in particular `current_task`) nor any
winner's grant/revocation/assignment outcome. -/
theorem write_to_sheet_policy (tn : Int) (env : SheetEnv) :
    ((write_to_sheet tn env).attemptsMade ≤ 3)
    ∧ ((write_to_sheet tn env).delays
        = (List.range ((write_to_sheet tn env).attemptsMade - 1)).map fun k => 2 ^ k)
    ∧ (env.gcReady = true → env.hasUrl = true → env.sheetIdValid = true →
        env.openOk 0 = true → tn + 1 > (env.rowCount : Int) →
        write_to_sheet tn env = ⟨.outOfBounds, 1, []⟩)
    ∧ (∀ (e : TickEnv) (s : BotState) (f : Nat → SheetEnv),
        (tick { e with winnerEnvs := fun i => { e.winnerEnvs i with sheet := f i } } s).1
          = (tick e s).1)
    ∧ (∀ (g : Option Guild) (ha : Bool) (st : Int) (we : Nat → WinnerEnv)
          (f : Nat → SheetEnv) (winners : List Member),
        (settleAll g ha st (fun i => { we i with sheet := f i }) winners).map
            (fun t => (t.1, t.2.1, t.2.2.granted, t.2.2.revocationScheduled,
                       t.2.2.raised, t.2.2.assigned))
          = (settleAll g ha st we winners).map
            (fun t => (t.1, t.2.1, t.2.2.granted, t.2.2.revocationScheduled,
                       t.2.2.raised, t.2.2.assigned))) := by
  refine ⟨?_, ?_, ?_, ?_, settleAll_sheet_outcomes⟩
  · unfold write_to_sheet
    repeat' split
    all_goals simp
  · unfold write_to_sheet
    repeat' split
    all_goals rfl
  · intro hg hu hv ho hb
    unfold write_to_sheet sheetAttempt
    simp [hg, hu, hv, ho, hb]
  · intro e s f
    exact tick_winnerEnvs_congr e s _ fun winners =>
      assignedCountOf_settleAll_sheet e.guild s.hasAnnounceChannel s.current_task
        e.winnerEnvs f winners

/-- Witness for C8: a sheet of 3 rows addressed at task 5 returns
out-of-bounds after a single attempt with no backoff. -/
theorem write_to_sheet_policy_witness :
    write_to_sheet 5 ⟨true, true, true, fun _ => true, 3, fun _ => true⟩
      = ⟨.outOfBounds, 1, []⟩ :=
  (write_to_sheet_policy 5 ⟨true, true, true, fun _ => true, 3, fun _ => true⟩).2.2.1
    rfl rfl rfl rfl (by decide)

/-- Counterexample to C9: a round is opened (its reaction-map entry exists and
recorded user 1's reaction) and then abandoned by a stop request observed
after the window; the `del` of the entry is skipped by the early return, the
entry survives the tick, and the following tick (which returns at the stop
guard) leaves it in place as well — the map is not purged regardless of
outcome. -/
theorem abandoned_round_reaction_map_retained :
    (tick envStopMidRound stateRun).2.opened = some 100
    ∧ (tick envStopMidRound stateRun).1.reaction_timestamps.lookup 100
        = some [(1, 5)]
    ∧ (tick envRound2 (tick envStopMidRound stateRun).1).1.reaction_timestamps.lookup 100
        = some [(1, 5)] := by
  decide

/-- C9 as amended: a round's reaction records are purged whenever the round's
body runs to completion (no abandonment and no framing failure); they are
retained when the round is abandoned by a post-window stop request; and they
are likewise retained when the round was opened but a framing exception (the
seed `add_reaction`, the reaction fetch, or the final send raising) escaped
the round body and skipped the `del`. -/
theorem reaction_map_purge_policy (e : TickEnv) (s : BotState) :
    ((tick e s).2.opened.isSome = true → (tick e s).2.abandoned = false →
        (tick e s).2.framingError = false →
        (tick e s).1.reaction_timestamps.lookup e.messageId = none)
    ∧ ((tick e s).2.abandoned = true →
        ((tick e s).1.reaction_timestamps.lookup e.messageId).isSome = true)
    ∧ ((tick e s).2.opened.isSome = true → (tick e s).2.framingError = true →
        ((tick e s).1.reaction_timestamps.lookup e.messageId).isSome = true) :=
  ⟨fun hopen hab hfr => tick_purges_on_complete e s hopen hab hfr,
   fun hab => tick_retains_on_abandon e s hab,
   fun hopen hfr => tick_retains_on_framing_error e s hopen hfr⟩

/-- Witness for C9 as amended: the fully settled first round of the concrete
run purges its entry for message 100, while an opened round whose reaction
fetch raises retains its entry. -/
theorem reaction_map_purge_policy_witness :
    (tick envRound1 stateRun).1.reaction_timestamps.lookup 100 = none
    ∧ ((tick envFetchFail stateRun).1.reaction_timestamps.lookup 100).isSome = true :=
  ⟨(reaction_map_purge_policy envRound1 stateRun).1 (by decide) (by decide) (by decide),
   (reaction_map_purge_policy envFetchFail stateRun).2.2 (by decide) (by decide)⟩

/-- Counterexample to C10: in a 2-task batch with two winners per round,
winner 1 (task 1) is granted the role, has revocation scheduled, then raises
in the DM step, while winner 2 settles task 2; `current_task` advances by one
to 2, so the next round re-offers task 2 — the number already assigned to
winner 2 — and the failed winner's task 1 is offered in no later round: the
batch completes with `current_task` stuck at 3 and no further round opened. -/
theorem failed_winner_number_skipped :
    ((tick envRound1 stateRun).2.outcomes.map
        fun t => (t.1.id, t.2.1, t.2.2.granted, t.2.2.revocationScheduled,
                  t.2.2.raised, t.2.2.assigned))
      = [(1, 1, true, true, true, false), (2, 2, true, true, false, true)]
    ∧ (tick envRound1 stateRun).1.current_task = 2
    ∧ (tick envRound2 (tick envRound1 stateRun).1).2.startingTask = 2
    ∧ ((tick envRound2 (tick envRound1 stateRun).1).2.outcomes.map
        fun t => (t.1.id, t.2.1, t.2.2.assigned)) = [(3, 2, true)]
    ∧ (tick envRound2 (tick envRound1 stateRun).1).1.current_task = 3
    ∧ (tick envRound3 (tick envRound2 (tick envRound1 stateRun).1).1).2.opened = none
    ∧ (tick envRound3 (tick envRound2 (tick envRound1 stateRun).1).1).1.current_task = 3 := by
  decide

/-- C10 as amended: a winner whose settlement pipeline raises after the role
grant keeps the granted role and its scheduled deferred revocation (nothing
rolls them back), is excluded from the successful count, and `current_task`
advances only by that count; every later round's task range starts at the
advanced counter, so the failed winner's number is re-offered only if it is
not below that counter (when a later winner of the same round settled
successfully, the failed number is skipped). -/
theorem failed_settlement_policy (e : TickEnv) (s : BotState) :
    ∀ t ∈ (tick e s).2.outcomes, t.2.2.granted = true → t.2.2.assigned = false →
      (t.2.2.raised = true
       ∧ t.2.2.revocationScheduled = true
       ∧ (tick e s).1.current_task
           = s.current_task + (assignedCountOf (tick e s).2.outcomes : Int)
       ∧ (∀ (envs : List TickEnv) (su : RoundSummary),
            su ∈ (runTicks envs (tick e s).1).2 →
            su.opened = none ∨ (tick e s).1.current_task ≤ su.startingTask)) := by
  intro t ht hg hn
  rcases tick_round_cases e s with ⟨_, _, ho⟩ | ⟨_, _, _, ho, _⟩ |
    ⟨_, _, _, _, _, ho, _, _⟩
  · rw [ho] at ht; simp at ht
  · rw [ho] at ht; simp at ht
  · rw [ho] at ht
    unfold settleAll at ht
    simp only [List.mem_map] at ht
    obtain ⟨p, _, rfl⟩ := ht
    obtain ⟨h1, h2⟩ := settleWinner_granted_not_assigned _ _ _ _ hg hn
    exact ⟨h1, h2, tick_current_task e s,
      fun envs su hsu => runTicks_summary_start envs (tick e s).1 su hsu⟩

/-- Witness for C10 as amended, at the concrete failing winner of round 1. -/
theorem failed_settlement_policy_witness :
    (tick envRound1 stateRun).2.outcomes.headI.2.2.raised = true :=
  (failed_settlement_policy envRound1 stateRun
      (tick envRound1 stateRun).2.outcomes.headI (by decide) (by decide) (by decide)).1
